import Mathlib

/-!
# Verification of the social-media backend's data/auth layer

Shallow embedding of the repository's four source files:

* `src/utils/asyncHandler.js` — the promise-based async boundary adapter;
* `src/utils/ApiError.js` — the error envelope class;
* the user model file (Mongoose schema, bcrypt pre-save hook,
  `isPasswordCorrect`, `generateAccessToken`, `generateRefreshToken`);
* `src/app.js` — pure Express wiring, no claims target it.

External libraries (bcrypt, jsonwebtoken) are modelled symbolically:
bcrypt as an abstract record of a fallible `hash` and a `compare`
satisfying the library's documented round-trip contract, and a JWT
signature as the pair (secret, signed message), i.e. an ideal MAC.
-/

namespace Backend

/-! ## asyncHandler (src/utils/asyncHandler.js)

A JavaScript call of `requestHandler(req, res, next)` has one of three
observable outcomes: it returns a value (a plain value or a promise that
fulfills — `Promise.resolve` treats both alike), it returns a promise
that rejects with an error, or it throws synchronously during the call.
-/

inductive JsOutcome (ε α : Type) where
  | ok : α → JsOutcome ε α
  | rejected : ε → JsOutcome ε α
  | thrown : ε → JsOutcome ε α
deriving DecidableEq, Repr

/-- Observable behaviour of one invocation of the wrapper returned by
`asyncHandler`: the arguments passed to `next` by the wrapper's own code
(the `.catch` clause), in order, and the error the wrapper itself throws
synchronously, if any. -/
structure WrapperRun (ε : Type) where
  nextCalls : List ε
  syncThrown : Option ε
deriving DecidableEq, Repr

/-- `asyncHandler` from src/utils/asyncHandler.js (the first, active
implementation).  The returned function evaluates
`Promise.resolve(requestHandler(req, res, next)).catch((err) => next(err))`.

JavaScript semantics of that line:
* the argument `requestHandler(req, res, next)` is evaluated first; if that
  call throws synchronously, the exception propagates out of the wrapper
  before `Promise.resolve` is ever applied, and `next` is not called;
* if it returns a value or a fulfilling promise, the `.catch` never fires;
* if it returns a rejecting promise, `.catch` fires once with the rejection
  value and calls `next(err)` exactly once. -/
def asyncHandler {ρ ε α : Type} (requestHandler : ρ → JsOutcome ε α) (req : ρ) :
    WrapperRun ε :=
  match requestHandler req with
  | .ok _ => { nextCalls := [], syncThrown := none }
  | .rejected err => { nextCalls := [err], syncThrown := none }
  | .thrown err => { nextCalls := [], syncThrown := some err }

/-! ## ApiError (src/utils/ApiError.js) -/

/-- The `stack` property: the constructor keeps a provided non-empty stack
string, otherwise calls `Error.captureStackTrace` (the empty-string default
is falsy in JavaScript, so it also triggers capture). -/
inductive StackTrace where
  | given : String → StackTrace
  | captured : StackTrace
deriving DecidableEq, Repr

structure ApiError where
  statusCode : Int
  message : String
  data : Option Unit
  success : Bool
  errors : List String
  stack : StackTrace
deriving DecidableEq, Repr

/-- The `ApiError` constructor.  JavaScript default parameters
(`message = "Something went wrong"`, `errors = []`, `stack = ""`) are
modelled by `Option` arguments: `none` is an omitted argument. -/
def mkApiError (statusCode : Int) (message : Option String)
    (errors : Option (List String)) (stack : Option String) : ApiError :=
  let msg := message.getD "Something went wrong"
  let st := stack.getD ""
  { statusCode := statusCode
    message := msg
    data := none
    success := false
    errors := errors.getD []
    stack := if st = "" then .captured else .given st }

/-! ## User model (the unnamed user-model source file) -/

/-- A persisted User document.  `_id` is the store-assigned identifier;
`createdAt`/`updatedAt` come from the schema's `timestamps` option. -/
structure UserDoc where
  _id : String
  username : String
  email : String
  fullName : String
  avatar : String
  coverImage : Option String
  watchHistory : List String
  password : String
  refreshToken : Option String
  createdAt : Nat
  updatedAt : Nat
deriving DecidableEq, Repr

/-- Symbolic model of the bcrypt library as used by the user model:
`hash plain cost` may fail (a rejected promise from `bcrypt.hash`),
`compare plain stored` is `bcrypt.compare`.  The two proof fields are
bcrypt's documented contract: comparing a plaintext against its own hash
succeeds, and a hash is never the plaintext itself (it carries the
`$2b$cost$salt` prefix). -/
structure Bcrypt where
  hash : String → Nat → Except String String
  compare : String → String → Bool
  compare_hash : ∀ p c h, hash p c = Except.ok h → compare p h = true
  hash_ne_plain : ∀ p c h, hash p c = Except.ok h → h ≠ p

/-- The `userSchema.pre("save")` hook.  `passwordIsModified` is
`this.isModified("password")`.  If the password was not modified the hook
returns (`next()`) without touching the document; otherwise it replaces
`this.password` with `await bcrypt.hash(this.password, 10)`.  A rejection
of the hash promise rejects the hook's own promise (the `Except.error`
branch), which aborts the save. -/
def preSave (b : Bcrypt) (doc : UserDoc) (passwordIsModified : Bool) :
    Except String UserDoc :=
  if !passwordIsModified then Except.ok doc
  else
    match b.hash doc.password 10 with
    | Except.ok hashed => Except.ok { doc with password := hashed }
    | Except.error e => Except.error e

/-- A persistence attempt: Mongoose runs the pre-save hook, then writes the
(possibly rewritten) document.  `stored` is the record's previously
persisted state.  Returns the store's state after the attempt and the
surfaced error, if any: on hook failure the store is left as it was and
the error reaches the caller. -/
def saveUser (b : Bcrypt) (stored : Option UserDoc) (doc : UserDoc)
    (passwordIsModified : Bool) : Option UserDoc × Option String :=
  match preSave b doc passwordIsModified with
  | Except.ok d => (some d, none)
  | Except.error e => (stored, some e)

/-- `userSchema.methods.isPasswordCorrect`:
`await bcrypt.compare(password, this.password)`. -/
def isPasswordCorrect (b : Bcrypt) (doc : UserDoc) (password : String) : Bool :=
  b.compare password doc.password

/-- JavaScript `String.prototype.toLowerCase`, character by character. -/
def jsToLower (s : String) : String :=
  ⟨s.data.map Char.toLower⟩

/-- JavaScript `String.prototype.trim`: drop leading and trailing
whitespace. -/
def jsTrim (s : String) : String :=
  ⟨((s.data.dropWhile fun c => c.isWhitespace).reverse.dropWhile
      fun c => c.isWhitespace).reverse⟩

/-- The value stored for a field declared with `lowercase: true` and
`trim: true` in the schema: Mongoose applies the option setters
(`v.toLowerCase()`, `v.trim()`) before persisting. -/
def schemaNormalize (s : String) : String :=
  jsTrim (jsToLower s)

/-- Registration input as submitted by the client. -/
structure RegistrationInput where
  username : String
  email : String
  fullName : String
  avatar : String
  coverImage : Option String
  password : String
deriving DecidableEq, Repr

/-- The User document produced from a registration input by the schema's
field setters (`username`/`email`: lowercase + trim; `fullName`: trim),
before the pre-save hook runs.  `idv` is the store-assigned id and `now`
the timestamp. -/
def mkStoredUser (i : RegistrationInput) (idv : String) (now : Nat) : UserDoc :=
  { _id := idv
    username := schemaNormalize i.username
    email := schemaNormalize i.email
    fullName := jsTrim i.fullName
    avatar := i.avatar
    coverImage := i.coverImage
    watchHistory := []
    password := i.password
    refreshToken := none
    createdAt := now
    updatedAt := now }

/-! ## JWT (jsonwebtoken, as called by the user model)

`jwt.sign(payload, secret, { expiresIn })` produces a token whose decoded
payload is the application claims plus the standard claims `iat` (the
clock reading at signing) and `exp = iat + expiresIn`, with an HMAC
signature over all of it under the secret.  The signature is modelled as
an ideal MAC: the pair of the secret and the signed message. -/

structure Jwt where
  payload : List (String × String)
  iat : Nat
  exp : Nat
  sig : String × List (String × String) × Nat × Nat
deriving DecidableEq, Repr

def jwtSign (payload : List (String × String)) (secret : String)
    (expiresIn : Nat) (now : Nat) : Jwt :=
  { payload := payload
    iat := now
    exp := now + expiresIn
    sig := (secret, payload, now, now + expiresIn) }

/-- Signature verification of a token against a secret: recompute the MAC
over the token's contents with the given secret and compare. -/
def jwtVerify (t : Jwt) (secret : String) : Bool :=
  t.sig == (secret, t.payload, t.iat, t.exp)

/-- Decoding a token yields its application claims (the standard claims are
the `iat`/`exp` fields). -/
def jwtDecode (t : Jwt) : List (String × String) :=
  t.payload

/-- `userSchema.methods.generateAccessToken`: signs
`{_id, email, username, fullName}` with `ACCESS_TOKEN_SECRET` and
`ACCESS_TOKEN_EXPIRY`.  `now` is the clock reading at the call. -/
def generateAccessToken (u : UserDoc) (secret : String)
    (expiresIn : Nat) (now : Nat) : Jwt :=
  jwtSign
    [("_id", u._id), ("email", u.email), ("username", u.username),
     ("fullName", u.fullName)]
    secret expiresIn now

/-- `userSchema.methods.generateRefreshToken`: signs `{_id}` with
`REFRESH_TOKEN_SECRET` and `REFRESH_TOKEN_EXPIRY`. -/
def generateRefreshToken (u : UserDoc) (secret : String)
    (expiresIn : Nat) (now : Nat) : Jwt :=
  jwtSign [("_id", u._id)] secret expiresIn now

/-! ## Concrete instances used by witnesses and counterexamples -/

/-- A toy bcrypt instance satisfying the library contract, used only to
instantiate witnesses: hashing prefixes the plaintext. -/
def toyBcrypt : Bcrypt where
  hash p _ := Except.ok ("h:" ++ p)
  compare p h := h == "h:" ++ p
  compare_hash := by
    intro p c h hh
    simp only [Except.ok.injEq] at hh
    subst hh
    simp
  hash_ne_plain := by
    intro p c h hh
    simp only [Except.ok.injEq] at hh
    subst hh
    intro he
    have hl := congrArg String.length he
    simp [String.length_append] at hl
    exact absurd hl (by decide)

/-- A bcrypt instance whose hashing always fails, used to witness the
hash-failure claim. -/
def failingBcrypt : Bcrypt where
  hash _ _ := Except.error "crypto failure"
  compare _ _ := false
  compare_hash := by intro p c h hh; simp at hh
  hash_ne_plain := by intro p c h hh; simp at hh

/-- A concrete user document for witnesses. -/
def aliceDoc : UserDoc :=
  { _id := "u1"
    username := "alice"
    email := "a@x.com"
    fullName := "Alice A"
    avatar := "http://x/a.png"
    coverImage := none
    watchHistory := []
    password := "secret123"
    refreshToken := none
    createdAt := 0
    updatedAt := 0 }

/-- `aliceDoc` with the token-relevant fields (`_id`, `email`, `username`,
`fullName`) unchanged but other fields different. -/
def aliceDocVariant : UserDoc :=
  { aliceDoc with password := "other", avatar := "http://x/b.png" }

/-- The registration input of the spec's worked example. -/
def exampleRegistration : RegistrationInput :=
  { username := "Alice"
    email := "A@x.com"
    fullName := "Alice A"
    avatar := "http://x/a.png"
    coverImage := none
    password := "secret123" }

/-! ## Theorems -/

/-- C1 (counterexample): a handler that throws synchronously is not
forwarded to `next` by the wrapper — `next` receives no call at all and the
exception escapes the wrapper synchronously, contradicting the claim that
every failure, including a synchronous throw, reaches `next` exactly once
with the wrapper never throwing. -/
theorem asyncHandler_sync_throw_escapes :
    (asyncHandler (fun _ : Unit => (JsOutcome.thrown "boom" : JsOutcome String Unit))
        ()).nextCalls = []
    ∧ (asyncHandler (fun _ : Unit => (JsOutcome.thrown "boom" : JsOutcome String Unit))
        ()).syncThrown = some "boom" :=
  ⟨rfl, rfl⟩

/-- C1 (amended): the wrapper produced by `asyncHandler` forwards a
rejected-promise failure to `next` exactly once, with that exact error
value, and throws nothing synchronously in that case; a synchronous throw
by the handler, however, propagates out of the wrapper and is not
forwarded to `next`. -/
theorem asyncHandler_failure_routing {ρ ε α : Type}
    (requestHandler : ρ → JsOutcome ε α) (req : ρ) (e : ε) :
    (requestHandler req = JsOutcome.rejected e →
      asyncHandler requestHandler req = { nextCalls := [e], syncThrown := none })
    ∧ (requestHandler req = JsOutcome.thrown e →
      asyncHandler requestHandler req = { nextCalls := [], syncThrown := some e }) := by
  constructor <;> intro h <;> simp [asyncHandler, h]

/-- C1 (witness): the amended routing at a concrete rejecting handler. -/
theorem asyncHandler_failure_routing_witness :
    asyncHandler (fun _ : Unit => (JsOutcome.rejected "e1" : JsOutcome String Unit)) ()
      = { nextCalls := ["e1"], syncThrown := none } :=
  (asyncHandler_failure_routing
    (fun _ : Unit => (JsOutcome.rejected "e1" : JsOutcome String Unit)) () "e1").1 rfl

/-- C10: when the handler completes successfully (returns a value or a
fulfilling promise), the wrapper invokes `next` zero times and throws
nothing. -/
theorem asyncHandler_success_no_next {ρ ε α : Type}
    (requestHandler : ρ → JsOutcome ε α) (req : ρ) (a : α)
    (h : requestHandler req = JsOutcome.ok a) :
    asyncHandler requestHandler req = { nextCalls := [], syncThrown := none } := by
  simp [asyncHandler, h]

/-- C10 (witness): the success path at a concrete handler. -/
theorem asyncHandler_success_no_next_witness :
    asyncHandler (fun _ : Unit => (JsOutcome.ok () : JsOutcome String Unit)) ()
      = { nextCalls := [], syncThrown := none } :=
  asyncHandler_success_no_next
    (fun _ : Unit => (JsOutcome.ok () : JsOutcome String Unit)) () () rfl

/-- C6: the `ApiError` constructor exposes the given `statusCode`, the given
`message` (defaulting to "Something went wrong" when omitted), `success`
always `false`, `data` always null, and the given `errors` (defaulting to
the empty sequence when omitted). -/
theorem mkApiError_contract (sc : Int) (m : String) (errs : List String)
    (st : Option String) :
    (mkApiError sc (some m) (some errs) st).statusCode = sc
    ∧ (mkApiError sc (some m) (some errs) st).message = m
    ∧ (mkApiError sc (some m) (some errs) st).success = false
    ∧ (mkApiError sc (some m) (some errs) st).data = none
    ∧ (mkApiError sc (some m) (some errs) st).errors = errs
    ∧ (mkApiError sc none none st).message = "Something went wrong"
    ∧ (mkApiError sc none none st).errors = [] := by
  simp [mkApiError]

/-- C2: persisting a document whose password was modified stores exactly the
bcrypt hash (cost 10) of the new value in `password`; the persisted
password differs from the submitted plaintext, and `isPasswordCorrect` on
the original plaintext afterwards returns `true`. -/
theorem save_hashes_modified_password (b : Bcrypt) (stored : Option UserDoc)
    (doc : UserDoc) (hw : String) (h : b.hash doc.password 10 = Except.ok hw) :
    saveUser b stored doc true = (some { doc with password := hw }, none)
    ∧ hw ≠ doc.password
    ∧ isPasswordCorrect b { doc with password := hw } doc.password = true := by
  refine ⟨?_, b.hash_ne_plain _ _ _ h, b.compare_hash _ _ _ h⟩
  simp [saveUser, preSave, h]

/-- C2 (witness): the hashing save at a concrete document and bcrypt
instance. -/
theorem save_hashes_modified_password_witness :
    saveUser toyBcrypt none aliceDoc true
      = (some { aliceDoc with password := "h:secret123" }, none)
    ∧ "h:secret123" ≠ aliceDoc.password
    ∧ isPasswordCorrect toyBcrypt { aliceDoc with password := "h:secret123" }
        aliceDoc.password = true :=
  save_hashes_modified_password toyBcrypt none aliceDoc "h:secret123" rfl

/-- C3: a persistence attempt with an unmodified password leaves the
document — the password field and every other field — untouched by the
pre-save hook: the hook returns the document unchanged and the save writes
it as is. -/
theorem presave_unmodified_identity (b : Bcrypt) (stored : Option UserDoc)
    (doc : UserDoc) :
    preSave b doc false = Except.ok doc
    ∧ saveUser b stored doc false = (some doc, none) := by
  simp [preSave, saveUser]

/-- C4: if the bcrypt hashing step fails, the save aborts with that exact
error surfaced to the caller and the stored state is unchanged — the
record is not written at all. -/
theorem save_aborts_on_hash_failure (b : Bcrypt) (stored : Option UserDoc)
    (doc : UserDoc) (e : String) (h : b.hash doc.password 10 = Except.error e) :
    saveUser b stored doc true = (stored, some e) := by
  simp [saveUser, preSave, h]

/-- C4 (witness): the aborted save at a concrete document and an
always-failing bcrypt instance. -/
theorem save_aborts_on_hash_failure_witness :
    saveUser failingBcrypt (some aliceDoc) aliceDoc true
      = (some aliceDoc, some "crypto failure") :=
  save_aborts_on_hash_failure failingBcrypt (some aliceDoc) aliceDoc
    "crypto failure" rfl

/-- C5: an access token decodes to exactly the application claims
`_id` (the user's identifier, which the spec calls "id"), `email`,
`username`, `fullName` — no more and no fewer — and a refresh token to
exactly `_id`; both carry the standard claims `iat` and `exp`. -/
theorem token_payload_claims (u : UserDoc) (s1 s2 : String) (e1 e2 n : Nat) :
    jwtDecode (generateAccessToken u s1 e1 n)
      = [("_id", u._id), ("email", u.email), ("username", u.username),
         ("fullName", u.fullName)]
    ∧ (jwtDecode (generateAccessToken u s1 e1 n)).map Prod.fst
      = ["_id", "email", "username", "fullName"]
    ∧ jwtDecode (generateRefreshToken u s2 e2 n) = [("_id", u._id)]
    ∧ (jwtDecode (generateRefreshToken u s2 e2 n)).map Prod.fst = ["_id"]
    ∧ (generateAccessToken u s1 e1 n).iat = n
    ∧ (generateAccessToken u s1 e1 n).exp = n + e1
    ∧ (generateRefreshToken u s2 e2 n).iat = n
    ∧ (generateRefreshToken u s2 e2 n).exp = n + e2 := by
  simp [jwtDecode, generateAccessToken, generateRefreshToken, jwtSign]

/-- C7 (counterexample): with identical user fields, secret and expiry
configuration, two invocations at different clock readings produce
different tokens — `jwt.sign` embeds the issued-at time, so the token is
not a function of the user, secret and expiry alone. -/
theorem token_clock_dependence :
    generateAccessToken aliceDoc "s" 100 0 ≠ generateAccessToken aliceDoc "s" 100 1 := by
  decide

/-- C7 (amended): token generation is deterministic given the token-relevant
user fields, the secret, the expiry and the clock reading at invocation:
two invocations agreeing on `_id`, `email`, `username`, `fullName`, the
secret, the expiry and the issuance time produce identical tokens (the
refresh token needs only `_id` to agree), with no dependence on any other
state. -/
theorem token_determinism (u1 u2 : UserDoc) (s : String) (e n : Nat)
    (hid : u1._id = u2._id) (hem : u1.email = u2.email)
    (hun : u1.username = u2.username) (hfn : u1.fullName = u2.fullName) :
    generateAccessToken u1 s e n = generateAccessToken u2 s e n
    ∧ generateRefreshToken u1 s e n = generateRefreshToken u2 s e n := by
  simp [generateAccessToken, generateRefreshToken, jwtSign, hid, hem, hun, hfn]

/-- C7 (witness): two documents differing only in password and avatar yield
the same tokens. -/
theorem token_determinism_witness :
    generateAccessToken aliceDoc "s" 100 0 = generateAccessToken aliceDocVariant "s" 100 0
    ∧ generateRefreshToken aliceDoc "s" 100 0
      = generateRefreshToken aliceDocVariant "s" 100 0 :=
  token_determinism aliceDoc aliceDocVariant "s" 100 0 rfl rfl rfl rfl

/-- C8: with distinct access and refresh secrets, an access token fails
signature verification against the refresh secret, and a refresh token
fails verification against the access secret. -/
theorem cross_secret_verification_fails (u : UserDoc) (sa sr : String)
    (ea er na nr : Nat) (hne : sa ≠ sr) :
    jwtVerify (generateAccessToken u sa ea na) sr = false
    ∧ jwtVerify (generateRefreshToken u sr er nr) sa = false := by
  have hne' : sr ≠ sa := hne.symm
  constructor <;>
    simp [jwtVerify, generateAccessToken, generateRefreshToken, jwtSign,
      Prod.ext_iff, hne, hne']

/-- C8 (witness): concrete distinct secrets. -/
theorem cross_secret_verification_fails_witness :
    jwtVerify (generateAccessToken aliceDoc "sa" 100 0) "sr" = false
    ∧ jwtVerify (generateRefreshToken aliceDoc "sr" 1000 0) "sa" = false :=
  cross_secret_verification_fails aliceDoc "sa" "sr" 100 1000 0 0 (by decide)

/-- C9: the schema's field setters store `username` and `email` lowercased
and trimmed of surrounding whitespace; in particular the registration
input with username "Alice" and email "A@x.com" is stored with username
"alice" and email "a@x.com". -/
theorem registration_normalizes_identifiers (i : RegistrationInput)
    (idv : String) (n : Nat) :
    (mkStoredUser i idv n).username = jsTrim (jsToLower i.username)
    ∧ (mkStoredUser i idv n).email = jsTrim (jsToLower i.email)
    ∧ (mkStoredUser exampleRegistration "u1" 0).username = "alice"
    ∧ (mkStoredUser exampleRegistration "u1" 0).email = "a@x.com" := by
  refine ⟨rfl, rfl, ?_, ?_⟩ <;> decide

end Backend
